import Mathlib

/-!
Shallow embedding of the `verbose.style/linux` package: a typed facade over
Linux file and memory system calls.  The embedding follows the Go source
(`errors.go`, `api.go`, `api_linux.go`, `file.go`): error tables are lists of
(field name, struct tag) pairs, the reflective `parse` loop becomes an indexed
scan, and the syscall wrappers become explicit functions whose "kernel call"
outcomes are recorded symbolically.  Go panics are modelled with `Except Unit`.
-/

/-- An operation's error table: the Go generic struct `T` instantiating
`Error[T]`.  `name` is the Go type name, `entries` lists the struct fields in
declaration order as (field name, struct tag) pairs; the tag is the kernel
error message text the field matches. -/
structure ErrOp where
  name : String
  entries : List (String × String)
deriving DecidableEq, Repr

/-- A Go `error` value as the package manipulates it: a raw error with a
message, a `syscall.Errno` numeric code, or a named variant of some
operation's table carrying its ordinal (the table index `parse`/`Types`
stored into the field's first byte). -/
inductive ErrValue where
  | raw (msg : String)
  | errno (n : Nat)
  | variant (op : ErrOp) (ordinal : Nat)
deriving DecidableEq, Repr

/-- Linux errno message strings as produced by `syscall.Errno.Error` on
linux/amd64, restricted to the codes this package's tables can meet.  Codes
outside the table (such as 0) fall through to the `"errno N"` form, exactly
as Go's `Errno.Error` does when its string table has no entry. -/
def errnoTable : List (Nat × String) :=
  [ (1, "operation not permitted"),
    (2, "no such file or directory"),
    (4, "interrupted system call"),
    (5, "I/O error"),
    (6, "no such device or address"),
    (9, "bad file descriptor"),
    (11, "resource temporarily unavailable"),
    (12, "cannot allocate memory"),
    (13, "permission denied"),
    (14, "bad address"),
    (16, "device or resource busy"),
    (17, "file exists"),
    (19, "no such device"),
    (20, "not a directory"),
    (21, "is a directory"),
    (22, "invalid argument"),
    (24, "too many open files"),
    (27, "file too large"),
    (28, "no space left on device"),
    (29, "illegal seek"),
    (30, "read-only file system"),
    (32, "broken pipe"),
    (36, "file name too long"),
    (40, "too many levels of symbolic links"),
    (75, "value too large for defined data type"),
    (89, "destination address required"),
    (122, "disk quota exceeded") ]

/-- `syscall.Errno.Error`: table lookup with the `"errno N"` fallback. -/
def errnoMessage (n : Nat) : String :=
  match errnoTable.lookup n with
  | some s => s
  | none => "errno " ++ toString n

/-- `ErrMethods.Error` / the `Error() string` method of every error value the
package handles.  A named variant reports its field's tag when the tag is
nonempty and otherwise the field's name (errors.go lines 9-15). -/
def errMessage : ErrValue → String
  | .raw s => s
  | .errno n => errnoMessage n
  | .variant op i =>
    match op.entries.get? i with
    | some f => if f.2 ≠ "" then f.2 else f.1
    | none => ""

/-- The scanning loop inside `ErrMethods.parse` (errors.go lines 25-31):
walk the fields in declaration order, return the index of the first field
whose tag equals the message.  `acc` is the index of the head of `entries`
in the full table. -/
def parseScan (entries : List (String × String)) (msg : String) (acc : Nat) : Option Nat :=
  match entries with
  | [] => none
  | f :: rest => if f.2 = msg then some acc else parseScan rest msg (acc + 1)

/-- `ErrMethods.parse` (errors.go lines 17-33): nil maps to nil; otherwise the
table is scanned for a field whose tag equals the input's message; on a hit the
matching variant is materialized with the table index as its ordinal; on a miss
the input error is returned unchanged. -/
def parse (op : ErrOp) (err : Option ErrValue) : Option ErrValue :=
  match err with
  | none => none
  | some e =>
    match parseScan op.entries (errMessage e) 0 with
    | some i => some (.variant op i)
    | none => some e

/-- `ErrMethods.Types` (errors.go lines 35-42): materialize every field of the
table, field `i` carrying ordinal `i`. -/
def Types (op : ErrOp) : List ErrValue :=
  (List.range op.entries.length).map (fun i => .variant op i)

/-- `ReadError` table (errors.go lines 45-53). -/
def ReadError : ErrOp :=
  { name := "ReadError",
    entries :=
      [ ("WouldBlock", "resource temporarily unavailable"),
        ("BadFile", "bad file descriptor"),
        ("Fault", "bad address"),
        ("Interrupted", "interrupted system call"),
        ("Invalid", "invalid argument"),
        ("IO", "I/O error"),
        ("Directory", "is a directory") ] }

/-- `WriteError` table (errors.go lines 56-69). -/
def WriteError : ErrOp :=
  { name := "WriteError",
    entries :=
      [ ("WouldBlock", "resource temporarily unavailable"),
        ("BadFile", "bad file descriptor"),
        ("NoDestination", "destination address required"),
        ("QuotaExhausted", "disk quota exceeded"),
        ("Fault", "bad address"),
        ("TooMuch", "file too large"),
        ("Interrupted", "interrupted system call"),
        ("Invalid", "invalid argument"),
        ("IO", "I/O error"),
        ("NoMoreSpace", "no space left on device"),
        ("NotPermitted", "operation not permitted"),
        ("BrokenPipe", "broken pipe") ] }

/-- `OpenError` table (errors.go lines 72-84). -/
def OpenError : ErrOp :=
  { name := "OpenError",
    entries :=
      [ ("AccessDenied", "permission denied"),
        ("BadFile", "bad file descriptor"),
        ("Busy", "device or resource busy"),
        ("QuotaExhausted", "disk quota exceeded"),
        ("AlreadyExists", "file exists"),
        ("Fault", "bad address"),
        ("FileTooLarge", "file too large"),
        ("NotPermitted", "operation not permitted"),
        ("ReadOnly", "read-only file system"),
        ("FileInUse", "file in use"),
        ("WouldBlock", "resource temporarily unavailable") ] }

/-- `CloseError` table (errors.go lines 87-93). -/
def CloseError : ErrOp :=
  { name := "CloseError",
    entries :=
      [ ("BadFile", "bad file descriptor"),
        ("Interrupted", "interrupted system call"),
        ("IO", "I/O error"),
        ("QuotaExhausted", "disk quota exceeded"),
        ("NoMoreSpace", "no space left on device") ] }

/-- `StatError` table (errors.go lines 96-107). -/
def StatError : ErrOp :=
  { name := "StatError",
    entries :=
      [ ("DoesNotExist", "no such file or directory"),
        ("AccessDenied", "permission denied"),
        ("BadFile", "bad file descriptor"),
        ("Fault", "bad address"),
        ("Invalid", "invalid argument"),
        ("Loop", "too many levels of symbolic links"),
        ("NameTooLong", "file name too long"),
        ("OutOfMemory", "cannot allocate memory"),
        ("NotDirectory", "not a directory"),
        ("StatFileTooLarge", "value too large for defined data type") ] }

/-- `PollError` table (errors.go lines 110-115). -/
def PollError : ErrOp :=
  { name := "PollError",
    entries :=
      [ ("Fault", "bad address"),
        ("Interrupted", "interrupted system call"),
        ("Invalid", "invalid argument"),
        ("OutOfMemory", "cannot allocate memory") ] }

/-- `SeekError` table (errors.go lines 118-124). -/
def SeekError : ErrOp :=
  { name := "SeekError",
    entries :=
      [ ("BadFile", "bad file descriptor"),
        ("Invalid", "invalid argument"),
        ("NotFound", "no such device or address"),
        ("Overflow", "value too large for defined data type"),
        ("Illegal", "illegal seek") ] }

/-- `MapError` table (errors.go lines 127-138). -/
def MapError : ErrOp :=
  { name := "MapError",
    entries :=
      [ ("AccessDenied", "permission denied"),
        ("Locked", "resource temporarily unavailable"),
        ("BadFile", "bad file descriptor"),
        ("AlreadyExists", "file exists"),
        ("Invalid", "invalid argument"),
        ("TooManyFiles", "too many open files"),
        ("Unsupported", "no such device"),
        ("OutOfMemory", "cannot allocate memory"),
        ("Overflow", "value too large for defined data type"),
        ("NotPermitted", "operation not permitted") ] }

/-- `ProtectMemoryError` table (errors.go lines 141-145). -/
def ProtectMemoryError : ErrOp :=
  { name := "ProtectMemoryError",
    entries :=
      [ ("AccessDenied", "permission denied"),
        ("Invalid", "invalid argument"),
        ("OutOfMemory", "cannot allocate memory") ] }

/-- `HeapError` table (errors.go lines 148-150). -/
def HeapError : ErrOp :=
  { name := "HeapError",
    entries := [ ("OutOfMemory", "cannot allocate memory") ] }

/-- Every operation's error table declared by the package. -/
def programOps : List ErrOp :=
  [ ReadError, WriteError, OpenError, CloseError, StatError,
    PollError, SeekError, MapError, ProtectMemoryError, HeapError ]

/-! ## Seek origins (api.go lines 59-65) and the kernel reference values -/

/-- `SeekRelativeToStart SeekWhence = 0` (api.go line 60). -/
def SeekRelativeToStart : Nat := 0
/-- `SeekRelative SeekWhence = 1` (api.go line 61). -/
def SeekRelative : Nat := 1
/-- `SeekRelativeToEnd SeekWhence = 1` (api.go line 62). -/
def SeekRelativeToEnd : Nat := 1
/-- `SeekHole SeekWhence = 2` (api.go line 63). -/
def SeekHole : Nat := 2
/-- `SeekData SeekWhence = 3` (api.go line 64). -/
def SeekData : Nat := 3

/-- Kernel reference `SEEK_SET`, asserted against by internal/test.go line 137. -/
def SEEK_SET : Nat := 0
/-- Kernel reference `SEEK_CUR`, asserted against by internal/test.go line 138. -/
def SEEK_CUR : Nat := 1
/-- Kernel reference `SEEK_END`, asserted against by internal/test.go line 139. -/
def SEEK_END : Nat := 2
/-- Kernel reference `SEEK_DATA`, asserted against by internal/test.go line 141. -/
def SEEK_DATA : Nat := 3
/-- Kernel reference `SEEK_HOLE`, asserted against by internal/test.go line 140. -/
def SEEK_HOLE : Nat := 4

/-! ## File flag constants

Numeric values are those of `src/unnamed/part_000` lines 224-248, which agree
with the `syscall.O_*` linux/amd64 values used in file.go lines 76-101.
`FileSize64` is `syscall.O_LARGEFILE`, which is 0 on linux/amd64. -/

/-- `FileCreationFlags` constants in declaration order (file.go lines 76-85):
CloseOnExecute, CreateIfNeeded, AssertDirectory, AssertCreation,
IsNotTheTerminal, TrapSymbolicLink, TemporaryInside, TruncatedToZero. -/
def FileCreationFlagsList : List Nat :=
  [0x80000, 0x40, 0x10000, 0x80, 0x100, 0x20000, 0x410000, 0x200]

/-- `FileStatusFlags` constants in declaration order (file.go lines 91-101):
Append, Async, Direct, SyncData, Size64, DoNotUpdateAccessTime, NonBlocking,
Path, Sync. -/
def FileStatusFlagsList : List Nat :=
  [0x400, 0x2000, 0x4000, 0x1000, 0x0, 0x40000, 0x800, 0x200000, 0x101000]

/-- `FileAccessMode` constants (file.go lines 133-137): ReadOnly, WriteOnly,
ReadWrite (`O_RDONLY`, `O_WRONLY`, `O_RDWR`). -/
def FileAccessModeList : List Nat := [0x0, 0x1, 0x2]

/-- Union of every `FileCreationFlags` bit. -/
def creationMask : Nat := FileCreationFlagsList.foldr (· ||| ·) 0

/-- Union of every `FileStatusFlags` bit. -/
def statusMask : Nat := FileStatusFlagsList.foldr (· ||| ·) 0

/-- The flags word `API.Open` hands to the kernel
(`int(access)|int(creation)|int(status)`, api_linux.go line 21). -/
def openFlagsWord (access creation status : Nat) : Nat :=
  access ||| creation ||| status

/-! ## Poll (api_linux.go lines 43-49) -/

/-- `FileToPoll` (api.go lines 36-40): descriptor, requested events, observed
events. -/
structure FileToPoll where
  file : Int
  notify : Int
  result : Int
deriving DecidableEq, Repr

/-- Outcome of one `API.Poll` invocation: either the facade returned before
reaching the kernel, or it issued the `SYS_POLL` call with the recorded
`nfds` and timeout argument registers. -/
inductive PollOutcome where
  | early (index : Int) (err : Option ErrValue)
  | kernelCall (nfds : Nat) (timeoutArg : Nat)
deriving DecidableEq, Repr

/-- Go's `uintptr(d)` for a `time.Duration` (an `int64` nanosecond count):
two's-complement conversion to a 64-bit unsigned machine word. -/
def uintptrOfInt (t : Int) : Nat := (t % (2 ^ 64)).toNat

/-- `Native().Poll` (api_linux.go lines 43-49): an empty files slice returns
`(0, new(PollError).Types().Fault)` without any kernel call; otherwise the
facade issues `SYS_POLL` passing the slice length and `uintptr(timeout)` —
the raw nanosecond count of the duration. -/
def NativePoll (files : List FileToPoll) (timeout : Int) : PollOutcome :=
  if files.length = 0 then
    .early 0 (some ((Types PollError).getD 0 (.raw "")))
  else
    .kernelCall files.length (uintptrOfInt timeout)

/-! ## Read / Write error wrapping (api_linux.go lines 12-19)

`syscall.Syscall` returns the errno as a raw machine word (0 on success);
the facade converts it with `syscall.Errno(err)` — always a non-nil `error`
interface value — and classifies it through the operation's table. -/

/-- The error value `Native().Read` returns for a raw errno word. -/
def NativeReadErr (rawErrno : Nat) : Option ErrValue :=
  parse ReadError (some (.errno rawErrno))

/-- The error value `Native().Write` returns for a raw errno word. -/
def NativeWriteErr (rawErrno : Nat) : Option ErrValue :=
  parse WriteError (some (.errno rawErrno))

/-! ## Close (api_linux.go lines 24-27, file.go lines 63-68) -/

/-- `Native().Close`: `syscall.Close` yields `none` (a nil `error` interface)
on success and `some e` (a `syscall.Errno`) on failure.  The facade then
evaluates `err.(syscall.Errno)`: on a nil interface this type assertion
panics (modelled as `Except.error ()`); otherwise the errno is classified
through the `CloseError` table. -/
def NativeClose (kernelResult : Option Nat) : Except Unit (Option ErrValue) :=
  match kernelResult with
  | none => Except.error ()
  | some e => Except.ok (parse CloseError (some (.errno e)))

/-- `File.Close` (file.go lines 63-68) for one invocation: `closed` is the
handle's `Closed` atomic flag before the call; the flag is swapped to `true`
and, when the old value was `false`, `Linux.Close` runs (its panic, if any,
propagates).  Returns the call's outcome and the new flag value. -/
def FileCloseOnce (linuxClose : Except Unit (Option ErrValue)) (closed : Bool) :
    Except Unit (Option ErrValue) × Bool :=
  if closed then (Except.ok none, true)
  else (linuxClose, true)

/-! ## Mapped memory (api_linux.go lines 62-96) -/

/-- `MemoryAllowReads MemoryProtection = 0x1` (part_000 line 47). -/
def MemoryAllowReads : Nat := 0x1
/-- `MemoryAllowWrites MemoryProtection = 0x2` (part_000 line 48). -/
def MemoryAllowWrites : Nat := 0x2

/-- The `mmap` struct (api_linux.go lines 62-65): the protection flags the
mapping was created with and the mapped byte region. -/
structure Mmap where
  check : Nat
  slice : List Nat
deriving DecidableEq, Repr

/-- `Mmap.Len` (api_linux.go lines 87-89). -/
def Mmap.Len (m : Mmap) : Nat := m.slice.length

/-- Go's `copy(dst, src)` on byte slices: overwrite the first
`min (length src) (length dst)` positions of `dst` with `src`. -/
def goCopy (dst src : List Nat) : List Nat :=
  (src.take dst.length) ++ dst.drop (min src.length dst.length)

/-- `mmap.ReadAt` (api_linux.go lines 67-73).  Protection is checked first:
without `MemoryAllowReads` the call returns `(p, 0, EACCES classified through
MapError)` with the caller's buffer untouched.  Otherwise `m.slice[off:]` is
taken — a panic (`Except.error`) when `off` is negative or beyond the slice
length — and `copy(p, m.slice[off:])` fills the buffer; the returned count is
`len(p)` regardless of how many bytes were copied.  The result triple is
(caller's buffer after the call, count, error). -/
def Mmap.ReadAt (m : Mmap) (p : List Nat) (off : Int) :
    Except Unit (List Nat × Nat × Option ErrValue) :=
  if m.check &&& MemoryAllowReads = 0 then
    Except.ok (p, 0, parse MapError (some (.errno 13)))
  else if off < 0 ∨ (m.slice.length : Int) < off then
    Except.error ()
  else
    Except.ok (goCopy p (m.slice.drop off.toNat), p.length, none)

/-- `mmap.WriteAt` (api_linux.go lines 75-81).  Protection is checked first:
without `MemoryAllowWrites` the call returns `(m, 0, EACCES classified through
MapError)` with the region untouched.  Otherwise `copy(m.slice[off:], p)`
writes into the region (panicking on an out-of-range offset) and the returned
count is `len(p)`.  The result triple is (mapping after the call, count,
error). -/
def Mmap.WriteAt (m : Mmap) (p : List Nat) (off : Int) :
    Except Unit (Mmap × Nat × Option ErrValue) :=
  if m.check &&& MemoryAllowWrites = 0 then
    Except.ok (m, 0, parse MapError (some (.errno 13)))
  else if off < 0 ∨ (m.slice.length : Int) < off then
    Except.error ()
  else
    Except.ok
      ({ m with slice := m.slice.take off.toNat ++ goCopy (m.slice.drop off.toNat) p },
        p.length, none)

/-! ## Helper lemmas about the classification scan -/

/-- The tag (declared kernel message text) of table entry `i`. -/
def tagOf (op : ErrOp) (i : Nat) : String := (op.entries.getD i ("", "")).2

/-- `parseScan` either finds the first entry whose tag equals the message and
returns its table index shifted by the accumulator, or no entry matches and it
returns `none`. -/
theorem parseScan_spec (msg : String) :
    ∀ (entries : List (String × String)) (acc : Nat),
      (∃ i, i < entries.length ∧ (entries.getD i ("", "")).2 = msg ∧
        (∀ j, j < i → (entries.getD j ("", "")).2 ≠ msg) ∧
        parseScan entries msg acc = some (acc + i)) ∨
      ((∀ f ∈ entries, f.2 ≠ msg) ∧ parseScan entries msg acc = none) := by
  intro entries
  induction entries with
  | nil =>
    intro acc
    right
    exact ⟨by simp, rfl⟩
  | cons f rest ih =>
    intro acc
    by_cases h : f.2 = msg
    · left
      refine ⟨0, by simp, by simpa using h, by omega, by simp [parseScan, h]⟩
    · rcases ih (acc + 1) with ⟨i, hi, htag, hmin, hscan⟩ | ⟨hall, hscan⟩
      · left
        refine ⟨i + 1, by simpa using hi, by simpa using htag, ?_, ?_⟩
        · intro j hj
          cases j with
          | zero => simpa using h
          | succ j' =>
            have := hmin j' (by omega)
            simpa using this
        · simp only [parseScan, if_neg h, hscan]
          congr 1
          omega
      · right
        refine ⟨?_, by simp only [parseScan, if_neg h, hscan]⟩
        intro g hg
        rcases List.mem_cons.mp hg with rfl | hg'
        · exact h
        · exact hall g hg'

/-- When the table's tags are pairwise distinct, classifying any error whose
message equals the tag of entry `i` yields exactly the variant with ordinal
`i`. -/
theorem parse_hits_index (op : ErrOp) (hnd : (op.entries.map Prod.snd).Nodup)
    (i : Nat) (hi : i < op.entries.length) (e : ErrValue)
    (he : errMessage e = tagOf op i) :
    parse op (some e) = some (.variant op i) := by
  rcases parseScan_spec (errMessage e) op.entries 0 with
    ⟨i', hi', htag, hmin, hscan⟩ | ⟨hall, hscan⟩
  · have hii : i' = i := by
      have hinj := List.nodup_iff_injective_get.mp hnd
      have hlen : (op.entries.map Prod.snd).length = op.entries.length := by simp
      have hgi : (op.entries.map Prod.snd).get ⟨i, by omega⟩ = errMessage e := by
        simp only [List.get_map]
        rw [← List.getD_eq_get op.entries ("", "")]
        exact (he ▸ rfl : (op.entries.getD i ("", "")).2 = errMessage e)
      have hgi' : (op.entries.map Prod.snd).get ⟨i', by omega⟩ = errMessage e := by
        simp only [List.get_map]
        rw [← List.getD_eq_get op.entries ("", "")]
        exact htag
      have := hinj (hgi'.trans hgi.symm)
      simpa using this
    subst hii
    simp [parse, hscan]
  · exfalso
    have hmem : op.entries.getD i ("", "") ∈ op.entries := by
      rw [List.getD_eq_get op.entries ("", "") hi]
      exact List.get_mem _ _ _
    exact hall _ hmem (by simpa [tagOf] using he.symm)

/-- A variant of an entry with a nonempty tag reports that tag as its
message. -/
theorem errMessage_variant (op : ErrOp) (i : Nat) (hi : i < op.entries.length)
    (hne : (op.entries.getD i ("", "")).2 ≠ "") :
    errMessage (.variant op i) = tagOf op i := by
  rw [List.getD_eq_get op.entries ("", "") hi] at hne
  simp only [errMessage]
  rw [List.get?_eq_get hi]
  simp only [tagOf]
  rw [List.getD_eq_get op.entries ("", "") hi]
  simp only [List.get_eq_getElem] at hne
  simp [hne]

/-- The full round-trip property for one operation's table, assuming its tags
are pairwise distinct and nonempty (true of every table the package
declares). -/
theorem roundtrip_core (op : ErrOp) (hnd : (op.entries.map Prod.snd).Nodup)
    (hne : ∀ f ∈ op.entries, f.2 ≠ "") (i : Nat) (hi : i < op.entries.length)
    (e : ErrValue) (he : errMessage e = tagOf op i) :
    (Types op).get? i = some (ErrValue.variant op i) ∧
    errMessage (ErrValue.variant op i) = tagOf op i ∧
    parse op (some e) = some (ErrValue.variant op i) ∧
    (∀ j, j < op.entries.length → ErrValue.variant op j = ErrValue.variant op i → j = i) := by
  refine ⟨?_, ?_, parse_hits_index op hnd i hi e he, ?_⟩
  · simp [Types, List.get?_map, List.get?_range, hi]
  · refine errMessage_variant op i hi ?_
    rw [List.getD_eq_get op.entries ("", "") hi]
    exact hne _ (List.get_mem _ _ _)
  · intro j _ hj
    injection hj

/-- C1: `ErrMethods.parse` is total and operation-local: a nil input yields
nil; a non-nil input either matches the first table entry whose declared
message text equals the input's message — producing that entry's variant with
the table index as its ordinal — or, when no entry's text matches, the
original error value is returned unchanged.  In every case the result is nil,
the untouched input, or a variant of this same operation's table. -/
theorem parse_total_same_op (op : ErrOp) (e : ErrValue) :
    parse op none = none ∧
    ((∃ i, i < op.entries.length ∧ tagOf op i = errMessage e ∧
        (∀ j, j < i → tagOf op j ≠ errMessage e) ∧
        parse op (some e) = some (ErrValue.variant op i)) ∨
      ((∀ f ∈ op.entries, f.2 ≠ errMessage e) ∧ parse op (some e) = some e)) := by
  refine ⟨rfl, ?_⟩
  rcases parseScan_spec (errMessage e) op.entries 0 with
    ⟨i, hi, htag, hmin, hscan⟩ | ⟨hall, hscan⟩
  · left
    exact ⟨i, hi, htag, hmin, by simp [parse, hscan]⟩
  · right
    exact ⟨hall, by simp [parse, hscan]⟩

/-- C7: for every error table the package declares and every table index, the
`Types` enumeration materializes the variant with ordinal `i` at position `i`,
the variant's `Error()` message equals the declared text of entry `i`, and
classifying any error whose message equals that text yields that very variant,
variants of distinct ordinals being distinct. -/
theorem variants_roundtrip (op : ErrOp) (hop : op ∈ programOps) (i : Nat)
    (hi : i < op.entries.length) (e : ErrValue) (he : errMessage e = tagOf op i) :
    (Types op).get? i = some (ErrValue.variant op i) ∧
    errMessage (ErrValue.variant op i) = tagOf op i ∧
    parse op (some e) = some (ErrValue.variant op i) ∧
    (∀ j, j < op.entries.length → ErrValue.variant op j = ErrValue.variant op i → j = i) := by
  simp only [programOps, List.mem_cons, List.not_mem_nil, or_false] at hop
  rcases hop with rfl | rfl | rfl | rfl | rfl | rfl | rfl | rfl | rfl | rfl <;>
    exact roundtrip_core _ (by decide) (by decide) i hi e he

/-- C7 witness: the round trip evaluated on the `ReadError` table at index 0
with a raw kernel error carrying the declared text. -/
theorem variants_roundtrip_witness :
    (Types ReadError).get? 0 = some (ErrValue.variant ReadError 0) ∧
    errMessage (ErrValue.variant ReadError 0) = tagOf ReadError 0 ∧
    parse ReadError (some (ErrValue.raw "resource temporarily unavailable")) =
      some (ErrValue.variant ReadError 0) ∧
    (∀ j, j < ReadError.entries.length →
      ErrValue.variant ReadError j = ErrValue.variant ReadError 0 → j = 0) :=
  variants_roundtrip ReadError (by decide) 0 (by decide)
    (ErrValue.raw "resource temporarily unavailable") (by decide)

/-- C2 counterexample: `Native().Poll` on an empty files list returns the
`Fault` variant of the poll table (ordinal 0, text "bad address"), which is
not the `Invalid` variant (ordinal 2, text "invalid argument") the claim
names. -/
theorem poll_empty_not_invalid :
    NativePoll [] 0 = PollOutcome.early 0 (some (ErrValue.variant PollError 0)) ∧
    ErrValue.variant PollError 0 ≠ ErrValue.variant PollError 2 ∧
    tagOf PollError 0 = "bad address" ∧
    tagOf PollError 2 = "invalid argument" ∧
    errMessage (ErrValue.variant PollError 0) ≠ "invalid argument" := by
  refine ⟨rfl, by decide, by decide, by decide, by decide⟩

/-- C2 (amended): for every timeout, `Native().Poll` called with an empty
files list returns index 0 together with the poll taxonomy's `Fault`
("bad address") variant, without issuing any kernel call and therefore
without blocking. -/
theorem poll_empty_early_fault (t : Int) :
    NativePoll [] t = PollOutcome.early 0 (some (ErrValue.variant PollError 0)) := rfl

/-- C3: evaluation of the double-close path when the underlying kernel close
succeeds.  `syscall.Close` then returns a nil `error` interface, so the
`err.(syscall.Errno)` type assertion inside `Native().Close` panics: the
first `File.Close` invocation panics instead of returning nil.  A second
invocation (flag already swapped) would return nil without another kernel
call. -/
theorem file_close_panics_on_success :
    NativeClose none = Except.error () ∧
    FileCloseOnce (NativeClose none) false = (Except.error (), true) ∧
    FileCloseOnce (NativeClose none) true = (Except.ok none, true) :=
  ⟨rfl, rfl, rfl⟩

/-- C4: the declared seek origins against the kernel reference values the
repository's own conformance test asserts.  `SeekRelativeToStart`,
`SeekRelative` and `SeekData` are correct, but `SeekRelativeToEnd` (declared
1, `SEEK_END` is 2) and `SeekHole` (declared 2, `SEEK_HOLE` is 4) are not,
and `SeekRelative` collides with `SeekRelativeToEnd`. -/
theorem seek_constants_diverge :
    SeekRelativeToStart = SEEK_SET ∧ SeekRelative = SEEK_CUR ∧
    SeekData = SEEK_DATA ∧
    SeekRelativeToEnd ≠ SEEK_END ∧ SeekHole ≠ SEEK_HOLE ∧
    SeekRelative = SeekRelativeToEnd := by decide

/-- C5: the mapped-memory wrapper checks its stored protection flags before
touching memory.  Without `MemoryAllowWrites`, `WriteAt` returns count 0 and
the `MapError` variant classified from `EACCES` — `AccessDenied`, ordinal 0,
message "permission denied" — leaving the region unchanged; symmetrically,
without `MemoryAllowReads`, `ReadAt` returns that variant with the caller's
buffer untouched, for every offset. -/
theorem mmap_access_precheck (m : Mmap) (p : List Nat) (off : Int) :
    (m.check &&& MemoryAllowWrites = 0 →
      Mmap.WriteAt m p off = Except.ok (m, 0, some (ErrValue.variant MapError 0))) ∧
    (m.check &&& MemoryAllowReads = 0 →
      Mmap.ReadAt m p off = Except.ok (p, 0, some (ErrValue.variant MapError 0))) ∧
    errMessage (ErrValue.variant MapError 0) = "permission denied" := by
  have hp : parse MapError (some (.errno 13)) = some (.variant MapError 0) := by decide
  refine ⟨fun h => ?_, fun h => ?_, by decide⟩
  · simp [Mmap.WriteAt, h, hp]
  · simp [Mmap.ReadAt, h, hp]

/-- C5 witness: a mapping created with no protection bits, probed at offset 0
and also past its end — the typed error is returned either way and nothing is
modified. -/
theorem mmap_access_precheck_witness :
    Mmap.WriteAt ⟨0, [7, 8]⟩ [1] 0 =
      Except.ok (⟨0, [7, 8]⟩, 0, some (ErrValue.variant MapError 0)) ∧
    Mmap.ReadAt ⟨0, [7, 8]⟩ [1] 5 =
      Except.ok ([1], 0, some (ErrValue.variant MapError 0)) :=
  ⟨(mmap_access_precheck ⟨0, [7, 8]⟩ [1] 0).1 (by decide),
    (mmap_access_precheck ⟨0, [7, 8]⟩ [1] 5).2.1 (by decide)⟩

/-- C6: `Native().Poll` passes `uintptr(timeout)` — the duration's raw
nanosecond count — as the kernel timeout argument: a 1 millisecond duration
(1000000 nanoseconds) reaches the kernel as 1000000, not as the 1 that the
declared millisecond precision requires. -/
theorem poll_timeout_passes_nanoseconds :
    NativePoll [⟨0, 1, 0⟩] 1000000 = PollOutcome.kernelCall 1 1000000 ∧
    uintptrOfInt 1000000 ≠ 1 := by
  refine ⟨?_, by decide⟩
  show PollOutcome.kernelCall 1 (uintptrOfInt 1000000) = PollOutcome.kernelCall 1 1000000
  congr 1

/-- C8: every `FileCreationFlags` constant is bitwise disjoint from every
`FileStatusFlags` constant, and the word `API.Open` composes
(`access|creation|status`) gives each component back under its category's
mask, so the composition loses no flag. -/
theorem open_flag_sets_disjoint :
    ∀ c ∈ FileCreationFlagsList, ∀ s ∈ FileStatusFlagsList,
      c &&& s = 0 ∧ ∀ a ∈ FileAccessModeList,
        openFlagsWord a c s &&& creationMask = c ∧
        openFlagsWord a c s &&& statusMask = s := by decide

/-- C8 witness: `O_CREAT` composed with `O_APPEND` under read-only access. -/
theorem open_flag_sets_disjoint_witness :
    0x40 &&& 0x400 = 0 ∧
    openFlagsWord 0x0 0x40 0x400 &&& creationMask = 0x40 ∧
    openFlagsWord 0x0 0x40 0x400 &&& statusMask = 0x400 :=
  have h := open_flag_sets_disjoint 0x40 (by decide) 0x400 (by decide)
  ⟨h.1, (h.2 0x0 (by decide)).1, (h.2 0x0 (by decide)).2⟩

/-- C9: when the raw kernel call under `Native().Read` or `Native().Write`
succeeds, the errno word is 0, which the facade wraps as the non-nil
`syscall.Errno(0)` value; its message "errno 0" matches no entry of either
table, so classification passes it through unchanged and the caller receives
a non-nil error even on success. -/
theorem read_write_success_errno_nonnil :
    NativeReadErr 0 = some (ErrValue.errno 0) ∧
    NativeWriteErr 0 = some (ErrValue.errno 0) ∧
    NativeReadErr 0 ≠ none ∧ NativeWriteErr 0 ≠ none ∧
    errMessage (ErrValue.errno 0) = "errno 0" ∧
    ReadError.entries.all (fun f => f.2 != "errno 0") = true ∧
    WriteError.entries.all (fun f => f.2 != "errno 0") = true := by decide

/-- C10: the mapped-memory accessors perform no bounds check of their own:
when the protection flags grant the direction, any offset strictly greater
than `Len()` makes the slice expression panic instead of returning an error,
while every in-range offset returns count `len(p)` even when fewer than
`len(p)` bytes lie between the offset and the end of the region. -/
theorem mmap_no_bounds_check (m : Mmap) (p : List Nat) (off : Int) :
    (m.check &&& MemoryAllowReads ≠ 0 → (m.Len : Int) < off →
      Mmap.ReadAt m p off = Except.error ()) ∧
    (m.check &&& MemoryAllowWrites ≠ 0 → (m.Len : Int) < off →
      Mmap.WriteAt m p off = Except.error ()) ∧
    (m.check &&& MemoryAllowReads ≠ 0 → 0 ≤ off → off ≤ (m.Len : Int) →
      ∃ q, Mmap.ReadAt m p off = Except.ok (q, p.length, none)) ∧
    (m.check &&& MemoryAllowWrites ≠ 0 → 0 ≤ off → off ≤ (m.Len : Int) →
      ∃ m2, Mmap.WriteAt m p off = Except.ok (m2, p.length, none)) := by
  refine ⟨fun h1 h2 => ?_, fun h1 h2 => ?_, fun h1 h0 hle => ?_, fun h1 h0 hle => ?_⟩
  · simp only [Mmap.Len] at h2
    simp [Mmap.ReadAt, h1, h2]
  · simp only [Mmap.Len] at h2
    simp [Mmap.WriteAt, h1, h2]
  · simp only [Mmap.Len] at hle
    have hcond : ¬(off < 0 ∨ (m.slice.length : Int) < off) := by omega
    exact ⟨goCopy p (m.slice.drop off.toNat), by simp [Mmap.ReadAt, h1, hcond]⟩
  · simp only [Mmap.Len] at hle
    have hcond : ¬(off < 0 ∨ (m.slice.length : Int) < off) := by omega
    exact ⟨{ m with slice := m.slice.take off.toNat ++ goCopy (m.slice.drop off.toNat) p },
      by simp [Mmap.WriteAt, h1, hcond]⟩

/-- C10 witness: a read/write mapping of one byte — `ReadAt` at offset 2
panics, while `ReadAt` at offset 1 (zero bytes available) still reports a
count of 3 for a 3-byte buffer. -/
theorem mmap_no_bounds_check_witness :
    Mmap.ReadAt ⟨3, [7]⟩ [1, 2, 3] 2 = Except.error () ∧
    Mmap.WriteAt ⟨3, [7]⟩ [1, 2, 3] 2 = Except.error () ∧
    (∃ q, Mmap.ReadAt ⟨3, [7]⟩ [1, 2, 3] 1 = Except.ok (q, 3, none)) ∧
    (∃ m2, Mmap.WriteAt ⟨3, [7]⟩ [1, 2, 3] 1 = Except.ok (m2, 3, none)) :=
  ⟨(mmap_no_bounds_check ⟨3, [7]⟩ [1, 2, 3] 2).1 (by decide) (by decide),
    (mmap_no_bounds_check ⟨3, [7]⟩ [1, 2, 3] 2).2.1 (by decide) (by decide),
    (mmap_no_bounds_check ⟨3, [7]⟩ [1, 2, 3] 1).2.2.1 (by decide) (by decide) (by decide),
    (mmap_no_bounds_check ⟨3, [7]⟩ [1, 2, 3] 1).2.2.2 (by decide) (by decide) (by decide)⟩

/-- C1 witness: the totality statement evaluated on the `ReadError` table with
a raw "bad address" kernel error. -/
theorem parse_total_same_op_witness :
    parse ReadError none = none ∧
    ((∃ i, i < ReadError.entries.length ∧
        tagOf ReadError i = errMessage (ErrValue.raw "bad address") ∧
        (∀ j, j < i → tagOf ReadError j ≠ errMessage (ErrValue.raw "bad address")) ∧
        parse ReadError (some (ErrValue.raw "bad address")) =
          some (ErrValue.variant ReadError i)) ∨
      ((∀ f ∈ ReadError.entries, f.2 ≠ errMessage (ErrValue.raw "bad address")) ∧
        parse ReadError (some (ErrValue.raw "bad address")) =
          some (ErrValue.raw "bad address"))) :=
  parse_total_same_op ReadError (ErrValue.raw "bad address")

/-- C2 witness: the amended statement evaluated at a negative timeout. -/
theorem poll_empty_early_fault_witness :
    NativePoll [] (-5) = PollOutcome.early 0 (some (ErrValue.variant PollError 0)) :=
  poll_empty_early_fault (-5)
